import Mathlib

/-!
Verification of `make-nixos-image.py`: a shallow embedding in Lean 4 of the
image-selection, ssh-retry, stream-merging, whitespace-normalization,
argument-parsing, polling and orchestration logic of the script, together
with proofs of the specified properties.
-/

namespace MkImage

/-! ### Data model of the marketplace catalog (spec section 3) -/

/-- A local (per-zone) disk image inside a marketplace version. -/
structure LocalImage where
  id : String
  zone : String
  compatible_commercial_types : List String
deriving DecidableEq, Repr

/-- A version of a marketplace image entry. -/
structure VersionEntry where
  id : String
  local_images : List LocalImage
deriving DecidableEq, Repr

/-- One marketplace catalog entry.  `creation_date` is modelled as a natural
number timestamp (the source sorts directly on the field). -/
structure CatalogEntry where
  name : String
  categories : List String
  creation_date : Nat
  current_public_version : String
  versions : List VersionEntry
deriving DecidableEq, Repr

/-! ### Image selector: `get_minimal_ubuntu` (source lines 21-52) -/

/-- Substring test on character lists, modelling Python's `in` on strings. -/
def containsSub (needle : List Char) : List Char → Bool
  | [] => needle.isEmpty
  | c :: rest => needle.isPrefixOf (c :: rest) || containsSub needle rest

/-- `"ubuntu" in image["name"].lower()` (source line 26); `str.lower` is
modelled character by character. -/
def nameMatches (name : String) : Bool :=
  containsSub "ubuntu".toList (name.toList.map Char.toLower)

/-- The entry filter of source lines 23-27: name marker plus the
`"distribution"` category. -/
def entryMatches (e : CatalogEntry) : Bool :=
  nameMatches e.name && e.categories.contains "distribution"

/-- Stable insertion of an entry into a list already sorted by
`creation_date` descending; an element moves past strictly newer ones only,
so elements with equal dates keep their original relative order.  This is
the behaviour of Python's stable `list.sort(key=..., reverse=True)`
(source line 29). -/
def insertByDateDesc (x : CatalogEntry) : List CatalogEntry → List CatalogEntry
  | [] => [x]
  | y :: t =>
    if x.creation_date < y.creation_date then y :: insertByDateDesc x t
    else x :: y :: t

/-- Stable sort by `creation_date` descending (source line 29). -/
def sortByDateDesc : List CatalogEntry → List CatalogEntry
  | [] => []
  | x :: t => insertByDateDesc x (sortByDateDesc t)

/-- The versions of an entry whose id equals the entry's
`current_public_version` (source lines 31-36). -/
def publicVersions (e : CatalogEntry) : List VersionEntry :=
  e.versions.filter (fun v => v.id == e.current_public_version)

/-- Python's `str.split("-")` on a character list: split at every hyphen;
consecutive hyphens produce empty pieces, and the result is never empty. -/
def splitDash : List Char → List (List Char)
  | [] => [[]]
  | c :: rest =>
    if c = '-' then [] :: splitDash rest
    else
      match splitDash rest with
      | h :: t => (c :: h) :: t
      | [] => [[c]]

/-- The legacy short zone form: `"".join(region.split("-")[-2:])`
(source line 46), e.g. `"par1"` from `"fr-par-1"`. -/
def legacyZone (region : String) : String :=
  let parts := (splitDash region.toList).map List.asString
  String.join (parts.drop (parts.length - 2))

/-- The local-image filter of source lines 42-48: the image is kept when the
instance type is among its compatible commercial types and its zone is the
region or the legacy short form of the region. -/
def localImageKept (region instance_type : String) (img : LocalImage) : Bool :=
  img.compatible_commercial_types.contains instance_type &&
    (img.zone == region || img.zone == legacyZone region)

/-- Selection failure (`raise Exception("Image not found")`, source line 52). -/
inductive SelErr where
  | imageNotFound
deriving DecidableEq, Repr

/-- `get_minimal_ubuntu` (source lines 21-52): filter entries, sort newest
first, collect current public versions in that order, collect their kept
local images in order, and return the first one's id. -/
def get_minimal_ubuntu (all_images : List CatalogEntry)
    (region instance_type : String) : Except SelErr String :=
  let images := all_images.filter entryMatches
  let sorted := sortByDateDesc images
  let public_versions := sorted.flatMap publicVersions
  let compatible_local_images :=
    public_versions.flatMap
      (fun v => v.local_images.filter (localImageKept region instance_type))
  match compatible_local_images with
  | img :: _ => .ok img.id
  | [] => .error .imageNotFound

/-! ### Dynamically typed values and argument parsing (source lines 89-103) -/

/-- A Python value that is either an `int` or a `str`: the
`--bootstrap-disk-size` option has no `type=` converter, so a command-line
value stays a string while the default is the integer `20`. -/
inductive PyVal where
  | int (n : Int)
  | str (s : String)
deriving DecidableEq, Repr

/-- `n` copies of a string concatenated, modelling Python `int * str`. -/
def strRepeat : Nat → String → String
  | 0, _ => ""
  | n + 1, s => s ++ strRepeat n s

/-- Python `n * v` for an `int` `n` and an `int`-or-`str` `v`: numeric
product on ints, sequence repetition on strings (negative counts give the
empty string, as in Python). -/
def pyMulIntVal (n : Int) : PyVal → PyVal
  | .int m => .int (n * m)
  | .str s => .str (strRepeat n.toNat s)

/-- Parsed arguments (source lines 89-103; the secret key is irrelevant to
the verified behaviour and omitted). -/
structure Args where
  region : String
  instance_type : String
  bootstrap_disk_size : PyVal
deriving DecidableEq, Repr

/-- `get_args` (source lines 89-103): each `Option String` is the raw
command-line value when the option was supplied.  `--region` defaults to
`"fr-par-1"`, `--instance-type` to `"DEV1-M"`, and `--bootstrap-disk-size`
to the integer `20`; a supplied disk size is stored as the raw string. -/
def get_args (region_opt instance_type_opt bootstrap_disk_size_opt : Option String) : Args :=
  { region := region_opt.getD "fr-par-1"
    instance_type := instance_type_opt.getD "DEV1-M"
    bootstrap_disk_size :=
      match bootstrap_disk_size_opt with
      | some s => PyVal.str s
      | none => PyVal.int 20 }

/-! ### `ssh_connect` (source lines 55-60) -/

/-- Connection failure after exhausting the retry bound (tenacity's
`RetryError`). -/
inductive ConnErr where
  | connectionFailed
deriving DecidableEq, Repr

/-- Per-attempt connection timeout passed to `client.connect`
(source line 59: `timeout=5`). -/
def ssh_connect_timeout : Nat := 5

/-- Delay tenacity inserts between attempts: `tenacity.retry` is used with
only a stop condition, so the wait strategy is "no wait". -/
def ssh_retry_wait : Nat := 0

/-- The retry loop of `tenacity.retry(stop=tenacity.stop_after_attempt(30))`
(source line 55) over an oracle `fails` telling whether the `i`-th attempt
(0-based) fails.  Returns the 1-based number of the successful attempt. -/
def sshAttempts (fails : Nat → Bool) : Nat → Nat → Except ConnErr Nat
  | _, 0 => .error .connectionFailed
  | i, fuel + 1 =>
    if fails i then sshAttempts fails (i + 1) fuel else .ok (i + 1)

/-- `ssh_connect` (source lines 55-60): up to 30 full connection attempts;
the address and key are forwarded to every attempt unchanged. -/
def ssh_connect (_ip_address _private_key : String) (fails : Nat → Bool) :
    Except ConnErr Nat :=
  sshAttempts fails 0 30

/-! ### `read_lines` (source lines 63-82): the two-reader/one-consumer merge

The generator spawns one daemon thread per stream; each thread pushes every
line of its stream into a shared FIFO queue and then terminates.  The
consumer repeatedly does `q.get(timeout=0.01)`; on `queue.Empty` it breaks
only when no reader thread is alive.  We model this as a labelled small-step
transition system: `prodA`/`prodB` are steps of the two reader threads (push
the next line, or terminate once the stream is exhausted), and `cons` is one
consumer step (dequeue a line; or observe the queue empty, which moves the
consumer to the liveness check; or perform the liveness check).  A schedule
is a list of labels; an interleaving of the three tasks is a schedule on
which every step is enabled. -/

/-- Labels of the three tasks of `read_lines`. -/
inductive RLabel where
  | prodA
  | prodB
  | cons
deriving DecidableEq, Repr

/-- State of the `read_lines` transition system: the unread remainders of
the two streams, the two thread-termination flags (`is_alive` negated), the
shared queue, the lines yielded so far, the consumer's program point
(`checking = true` between observing `queue.Empty` and testing liveness),
and whether the consumer has broken out of its loop. -/
structure RState (α : Type) where
  a : List α
  b : List α
  aDone : Bool
  bDone : Bool
  q : List α
  out : List α
  checking : Bool
  halted : Bool
deriving DecidableEq, Repr

/-- Initial state of `read_lines` on streams `la` and `lb`. -/
def initState (la lb : List α) : RState α :=
  { a := la, b := lb, aDone := false, bDone := false,
    q := [], out := [], checking := false, halted := false }

/-- One step of the labelled task; `none` when the label is not enabled
(the thread has already terminated, or the consumer has already broken). -/
def stepLabel : RLabel → RState α → Option (RState α)
  | .prodA, s =>
    if s.aDone then none
    else
      match s.a with
      | x :: t => some { s with a := t, q := s.q ++ [x] }
      | [] => some { s with aDone := true }
  | .prodB, s =>
    if s.bDone then none
    else
      match s.b with
      | x :: t => some { s with b := t, q := s.q ++ [x] }
      | [] => some { s with bDone := true }
  | .cons, s =>
    if s.halted then none
    else if s.checking then
      if s.aDone && s.bDone then some { s with halted := true }
      else some { s with checking := false }
    else
      match s.q with
      | x :: t => some { s with q := t, out := s.out ++ [x] }
      | [] => some { s with checking := true }

/-- Run a schedule from a state; `none` when some step is not enabled. -/
def runSched : List RLabel → RState α → Option (RState α)
  | [], s => some s
  | l :: ls, s =>
    match stepLabel l s with
    | none => none
    | some s' => runSched ls s'

/-- `Interleave u v c`: `c` is a merge of `u` and `v` keeping the relative
order of each; it forces `c` to be exactly the two lists' elements. -/
inductive Interleave : List α → List α → List α → Prop where
  | nil : Interleave [] [] []
  | left {u v c : List α} (x : α) : Interleave u v c → Interleave (x :: u) v (x :: c)
  | right {u v c : List α} (x : α) : Interleave u v c → Interleave u (x :: v) (x :: c)

/-- Invariant of the `read_lines` transition system: the lines delivered so
far (yielded plus still queued) form an interleaving of the consumed
prefixes of the two streams; a terminated reader has consumed its whole
stream; and the consumer breaks only after both readers terminated. -/
def MergeInv (la lb : List α) (s : RState α) : Prop :=
  (∃ u v, la = u ++ s.a ∧ lb = v ++ s.b ∧ Interleave u v (s.out ++ s.q)) ∧
  (s.aDone = true → s.a = []) ∧
  (s.bDone = true → s.b = []) ∧
  (s.halted = true → s.aDone = true ∧ s.bDone = true)

/-! ### `flatten_whitespace` (source lines 85-86) -/

/-- Python's `\s` class on the characters the script can meet (ASCII). -/
def isWS (c : Char) : Bool :=
  c == ' ' || c == '\t' || c == '\n' || c == '\x0d' || c == '\x0b' || c == '\x0c'

theorem length_dropWhile_le_ws (l : List Char) :
    (l.dropWhile isWS).length ≤ l.length := by
  induction l with
  | nil => simp
  | cons c t ih =>
    by_cases h : isWS c
    · simpa [List.dropWhile, h] using Nat.le_succ_of_le ih
    · simp [List.dropWhile, h]

/-- `re.sub("\s+", " ", l)` on a line given as a character list: every
maximal run of whitespace becomes a single space. -/
def collapseWS : List Char → List Char
  | [] => []
  | c :: rest =>
    if isWS c then ' ' :: collapseWS (rest.dropWhile isWS)
    else c :: collapseWS rest
termination_by l => l.length
decreasing_by
  · simpa [Nat.lt_succ_iff] using length_dropWhile_le_ws rest
  · simp

/-- Python `str.strip()`: drop leading and trailing whitespace. -/
def stripWS (l : List Char) : List Char :=
  ((l.dropWhile isWS).reverse.dropWhile isWS).reverse

/-- `re.sub("\s+", " ", l).strip()` (source line 86). -/
def normalizeLine (l : List Char) : List Char :=
  stripWS (collapseWS l)

/-- `flatten_whitespace` (source lines 85-86): normalize every line and keep
the truthy (non-empty) results, in order. -/
def flatten_whitespace (lines : List (List Char)) : List (List Char) :=
  (lines.map normalizeLine).filter (fun l => !l.isEmpty)

/-- No two consecutive whitespace characters. -/
def noWSRun : List Char → Bool
  | c₁ :: c₂ :: rest => !(isWS c₁ && isWS c₂) && noWSRun (c₂ :: rest)
  | _ => true

/-- The first character, if any, is not whitespace. -/
def headNotWS : List Char → Bool
  | [] => true
  | c :: _ => !isWS c

/-! ### Orchestrator data (source lines 106-260) -/

/-- Machine lifecycle states; `stoppedInPlace` models the source's
`"stopped in place"` string (spec name `stopped_in_place`). -/
inductive MachineState where
  | pending
  | starting
  | running
  | stopping
  | stoppedInPlace
  | terminated
deriving DecidableEq, Repr

/-- The fields of a `GET /servers/:id` response the script reads. -/
structure Machine where
  id : String
  state : MachineState
  public_ip : String
  volume1_id : String
  arch : String
deriving DecidableEq, Repr

/-- Snapshot lifecycle states. -/
inductive SnapState where
  | pending
  | available
  | snapError
deriving DecidableEq, Repr

/-- The fields of a snapshot response the script reads. -/
structure Snapshot where
  id : String
  state : SnapState
deriving DecidableEq, Repr

/-- External calls the orchestrator issues, in the order they are made. -/
inductive Event where
  | getOrganizations
  | listImages
  | createServer (image_id : String) (vol0_size : PyVal) (vol1_size : Int) (tag : String)
  | serverAction (server_id action : String)
  | getServer
  | sshConnect (address : String)
  | openSftp
  | sftpPut (src dst : String)
  | execCommand (cmd : String)
  | recvExitStatus
  | createSnapshot (volume_id name : String)
  | getSnapshot
  | createImage (name root_volume arch : String)
deriving DecidableEq, Repr

/-- Failures of a run of `main`. -/
inductive RunErr where
  | backendFailure
  | imageNotFound
  | connectionFailed
  | bootstrapFailed
deriving DecidableEq, Repr

/-- The mocked collaborators of one run of `main`: responses of the identity,
catalog and compute services, the locally generated key pair, the local
bootstrap directory listing, and the remote command's behaviour.  The
polling responses are indexed by the number of the fetch (0-based). -/
structure Env where
  organization_ids : List String
  catalog : List CatalogEntry
  key_public : String
  key_private : String
  created : Machine
  bootResponses : Nat → Machine
  sshFails : Nat → Bool
  files : List String
  exit_status : Int
  stopResponses : Nat → Machine
  snapResponses : Nat → Snapshot
  timestamp : String

/-- The shape of every polling loop in `main` (source lines 167-176,
202-211, 230-239): fetch, test, sleep on failure, fetch again.  Returns the
first fetched resource satisfying the predicate together with the number of
fetches made; `none` when the fuel runs out first (the source loops
forever). -/
def pollCount {σ : Type} (fetch : Nat → σ) (p : σ → Bool) : Nat → Nat → Option (σ × Nat)
  | _, 0 => none
  | i, fuel + 1 =>
    let r := fetch i
    if p r then some (r, i + 1) else pollCount fetch p (i + 1) fuel

/-- The observable actions of one polling loop. -/
inductive PollAct where
  | fetch
  | sleep
deriving DecidableEq, Repr

/-- The polling loop again, now recording its fetch and sleep actions in
order: the loop fetches, tests, and sleeps only before another fetch —
never after the successful one. -/
def pollTrace {σ : Type} (fetch : Nat → σ) (p : σ → Bool) :
    Nat → Nat → Option (σ × List PollAct)
  | _, 0 => none
  | i, fuel + 1 =>
    let r := fetch i
    if p r then some (r, [PollAct.fetch])
    else
      (pollTrace fetch p (i + 1) fuel).map
        (fun res => (res.1, PollAct.fetch :: PollAct.sleep :: res.2))

/-- `main` (source lines 106-260) over mocked collaborators, returning the
trace of external calls and the outcome.  `fuel` bounds each polling loop;
`none` means the corresponding source loop would not have terminated within
`fuel` fetches.  Mirrors the source order: organization lookup, image
selection, server creation (volume `"0"` sized `1_000_000_000 *
args.bootstrap_disk_size`, volume `"1"` named and sized `20_000_000_000`,
public key in a tag), power-on, poll to `running`, ssh connect with retry,
sftp upload of every bootstrap file into `/tmp`, remote bootstrap command,
exit status check, poll to `stopped in place`, snapshot of volume `"1"`,
poll to `available`, image creation from the snapshot and the machine's
architecture, terminate action. -/
def mainRun (env : Env) (args : Args) (fuel : Nat) :
    Option (List Event × Except RunErr Unit) :=
  match env.organization_ids with
  | [] => some ([Event.getOrganizations], Except.error RunErr.backendFailure)
  | _organization_id :: _ =>
    match get_minimal_ubuntu env.catalog args.region args.instance_type with
    | .error _ =>
      some ([Event.getOrganizations, Event.listImages], Except.error RunErr.imageNotFound)
    | .ok image_id =>
      let pre : List Event :=
        [Event.getOrganizations, Event.listImages,
         Event.createServer image_id (pyMulIntVal 1000000000 args.bootstrap_disk_size)
           20000000000 ("AUTHORIZED_KEY=" ++ env.key_public),
         Event.serverAction env.created.id "poweron"]
      match pollCount env.bootResponses (fun m => decide (m.state = MachineState.running)) 0 fuel with
      | none => none
      | some (server, nBoot) =>
        let t1 := pre ++ List.replicate nBoot Event.getServer
        match ssh_connect server.public_ip env.key_private env.sshFails with
        | .error _ =>
          some (t1 ++ List.replicate 30 (Event.sshConnect server.public_ip),
            Except.error RunErr.connectionFailed)
        | .ok nAttempts =>
          let t2 := t1 ++ List.replicate nAttempts (Event.sshConnect server.public_ip)
            ++ [Event.openSftp]
            ++ env.files.map (fun f => Event.sftpPut f ("/tmp/" ++ f))
            ++ [Event.execCommand "bash /tmp/nix-bootstrap.sh", Event.recvExitStatus]
          if env.exit_status ≠ -1 ∧ env.exit_status ≠ 0 then
            some (t2, Except.error RunErr.bootstrapFailed)
          else
            match pollCount env.stopResponses
                (fun m => decide (m.state = MachineState.stoppedInPlace)) 0 fuel with
            | none => none
            | some (server2, nStop) =>
              let image_name := "nixos-" ++ env.timestamp
              let t3 := t2 ++ List.replicate nStop Event.getServer
                ++ [Event.createSnapshot server2.volume1_id image_name]
              match pollCount env.snapResponses
                  (fun s => decide (s.state = SnapState.available)) 0 fuel with
              | none => none
              | some (snap2, nSnap) =>
                let t4 := t3 ++ List.replicate nSnap Event.getSnapshot
                  ++ [Event.createImage image_name snap2.id server2.arch,
                      Event.serverAction server2.id "terminate"]
                some (t4, Except.ok ())

/-! ### Polling-loop lemmas -/

theorem pollTrace_eq {σ : Type} (fetch : Nat → σ) (p : σ → Bool) :
    ∀ (j i fuel : Nat), (∀ k, k < j → p (fetch (i + k)) = false) →
      p (fetch (i + j)) = true → j < fuel →
      pollTrace fetch p i fuel =
        some (fetch (i + j),
          List.flatten (List.replicate j [PollAct.fetch, PollAct.sleep]) ++ [PollAct.fetch]) := by
  intro j
  induction j with
  | zero =>
    intro i fuel _ hp hfuel
    match fuel, hfuel with
    | f + 1, _ =>
      simp only [Nat.add_zero] at hp
      simp [pollTrace, hp]
  | succ j ih =>
    intro i fuel hlt hp hfuel
    match fuel, hfuel with
    | f + 1, hfuel =>
      have h0 : p (fetch i) = false := by simpa using hlt 0 (Nat.succ_pos j)
      have hlt' : ∀ k, k < j → p (fetch (i + 1 + k)) = false := by
        intro k hk
        have := hlt (k + 1) (Nat.succ_lt_succ hk)
        simpa [Nat.add_assoc, Nat.add_comm 1 k] using this
      have hp' : p (fetch (i + 1 + j)) = true := by
        have : i + 1 + j = i + (j + 1) := by omega
        simpa [this] using hp
      have hfj : j < f := Nat.lt_of_succ_lt_succ hfuel
      have := ih (i + 1) f hlt' hp' hfj
      simp only [pollTrace, h0, this, Option.map_some, Bool.false_eq_true, if_false]
      refine congrArg some ?_
      refine Prod.ext ?_ ?_
      · simp only
        refine congrArg fetch ?_
        omega
      · simp [List.replicate_succ]

theorem pollCount_eq {σ : Type} (fetch : Nat → σ) (p : σ → Bool) :
    ∀ (j i fuel : Nat), (∀ k, k < j → p (fetch (i + k)) = false) →
      p (fetch (i + j)) = true → j < fuel →
      pollCount fetch p i fuel = some (fetch (i + j), i + j + 1) := by
  intro j
  induction j with
  | zero =>
    intro i fuel _ hp hfuel
    match fuel, hfuel with
    | f + 1, _ =>
      simp only [Nat.add_zero] at hp
      simp [pollCount, hp]
  | succ j ih =>
    intro i fuel hlt hp hfuel
    match fuel, hfuel with
    | f + 1, hfuel =>
      have h0 : p (fetch i) = false := by simpa using hlt 0 (Nat.succ_pos j)
      have hlt' : ∀ k, k < j → p (fetch (i + 1 + k)) = false := by
        intro k hk
        have := hlt (k + 1) (Nat.succ_lt_succ hk)
        simpa [Nat.add_assoc, Nat.add_comm 1 k] using this
      have hp' : p (fetch (i + 1 + j)) = true := by
        have : i + 1 + j = i + (j + 1) := by omega
        simpa [this] using hp
      have hfj : j < f := Nat.lt_of_succ_lt_succ hfuel
      have := ih (i + 1) f hlt' hp' hfj
      simp only [pollCount, h0, this, Bool.false_eq_true, if_false]
      refine congrArg some (Prod.ext ?_ ?_)
      · simp only
        refine congrArg fetch ?_
        omega
      · simp only
        omega

theorem count_pollActs (j : Nat) :
    (List.flatten (List.replicate j [PollAct.fetch, PollAct.sleep])
        ++ [PollAct.fetch]).count PollAct.fetch = j + 1 ∧
    (List.flatten (List.replicate j [PollAct.fetch, PollAct.sleep])
        ++ [PollAct.fetch]).count PollAct.sleep = j := by
  induction j with
  | zero => simp [List.count_cons]
  | succ j ih =>
    simp only [List.replicate_succ, List.flatten_cons, List.count_append,
      List.cons_append, List.nil_append] at *
    constructor
    · have := ih.1
      simp [List.count_cons, List.count_append] at this ⊢
      omega
    · have := ih.2
      simp [List.count_cons, List.count_append] at this ⊢
      omega

/-! ### ssh retry lemmas -/

theorem sshAttempts_ok (fails : Nat → Bool) :
    ∀ (j i fuel : Nat), (∀ k, k < j → fails (i + k) = true) →
      fails (i + j) = false → j < fuel →
      sshAttempts fails i fuel = .ok (i + j + 1) := by
  intro j
  induction j with
  | zero =>
    intro i fuel _ hok hfuel
    match fuel, hfuel with
    | f + 1, _ =>
      simp only [Nat.add_zero] at hok
      simp [sshAttempts, hok]
  | succ j ih =>
    intro i fuel hlt hok hfuel
    match fuel, hfuel with
    | f + 1, hfuel =>
      have h0 : fails i = true := by simpa using hlt 0 (Nat.succ_pos j)
      have hlt' : ∀ k, k < j → fails (i + 1 + k) = true := by
        intro k hk
        have := hlt (k + 1) (Nat.succ_lt_succ hk)
        simpa [Nat.add_assoc, Nat.add_comm 1 k] using this
      have hok' : fails (i + 1 + j) = false := by
        have h : i + 1 + j = i + (j + 1) := by omega
        simpa [h] using hok
      have := ih (i + 1) f hlt' hok' (Nat.lt_of_succ_lt_succ hfuel)
      simp only [sshAttempts, h0, if_true, this]
      refine congrArg Except.ok ?_
      omega

theorem sshAttempts_err (fails : Nat → Bool) :
    ∀ (fuel i : Nat), (∀ k, k < fuel → fails (i + k) = true) →
      sshAttempts fails i fuel = .error .connectionFailed := by
  intro fuel
  induction fuel with
  | zero => intro i _; rfl
  | succ f ih =>
    intro i hall
    have h0 : fails i = true := by simpa using hall 0 (Nat.succ_pos f)
    have hall' : ∀ k, k < f → fails (i + 1 + k) = true := by
      intro k hk
      have := hall (k + 1) (Nat.succ_lt_succ hk)
      simpa [Nat.add_assoc, Nat.add_comm 1 k] using this
    simp [sshAttempts, h0, ih (i + 1) hall']

/-! ### Claim C5: the local-image filter -/

/-- C5: a local image is kept by the image selector's filter exactly when
its compatible-instance set contains the instance type and its zone equals
the full region string or the legacy short form (the last two
hyphen-separated segments of the region joined without separator); in
particular the legacy short form of `"fr-par-1"` is `"par1"`. -/
theorem C5_local_image_filter (region instance_type : String) (img : LocalImage) :
    (localImageKept region instance_type img = true ↔
      (instance_type ∈ img.compatible_commercial_types ∧
        (img.zone = region ∨ img.zone = legacyZone region))) ∧
    legacyZone "fr-par-1" = "par1" := by
  constructor
  · simp [localImageKept]
  · decide

/-! ### Claim C7: the resource poller -/

/-- C7: for every fetch function and predicate, when the first satisfying
result is the `(j+1)`-st fetch, the polling loop returns exactly that
resource, performs exactly `j + 1` fetches and exactly `j` sleeps, one
between each pair of consecutive fetches and none after the successful
fetch (the action trace ends with a fetch). -/
theorem C7_resource_poller {σ : Type} (fetch : Nat → σ) (p : σ → Bool)
    (fuel j : Nat) (hfuel : j < fuel)
    (hfirst : ∀ k, k < j → p (fetch k) = false) (hp : p (fetch j) = true) :
    pollTrace fetch p 0 fuel =
      some (fetch j,
        List.flatten (List.replicate j [PollAct.fetch, PollAct.sleep]) ++ [PollAct.fetch]) ∧
    (List.flatten (List.replicate j [PollAct.fetch, PollAct.sleep])
        ++ [PollAct.fetch]).count PollAct.fetch = j + 1 ∧
    (List.flatten (List.replicate j [PollAct.fetch, PollAct.sleep])
        ++ [PollAct.fetch]).count PollAct.sleep = j ∧
    (List.flatten (List.replicate j [PollAct.fetch, PollAct.sleep])
        ++ [PollAct.fetch]).getLast? = some PollAct.fetch := by
  refine ⟨?_, (count_pollActs j).1, (count_pollActs j).2, ?_⟩
  · have h := pollTrace_eq fetch p j 0 fuel (by simpa using hfirst) (by simpa using hp) hfuel
    simpa using h
  · simp

/-- Witness for C7 at the claim's concrete instance: state sequence
`[pending, pending, running]` with predicate "state is running" returns the
third fetch, after exactly 3 fetches and 2 sleeps. -/
theorem C7_resource_poller_witness :
    pollTrace
        (fun i => [MachineState.pending, MachineState.pending,
          MachineState.running].getD i MachineState.pending)
        (fun m => decide (m = MachineState.running)) 0 5 =
      some (MachineState.running,
        [PollAct.fetch, PollAct.sleep, PollAct.fetch, PollAct.sleep, PollAct.fetch]) ∧
    [PollAct.fetch, PollAct.sleep, PollAct.fetch, PollAct.sleep,
      PollAct.fetch].count PollAct.fetch = 3 ∧
    [PollAct.fetch, PollAct.sleep, PollAct.fetch, PollAct.sleep,
      PollAct.fetch].count PollAct.sleep = 2 ∧
    [PollAct.fetch, PollAct.sleep, PollAct.fetch, PollAct.sleep,
      PollAct.fetch].getLast? = some PollAct.fetch :=
  C7_resource_poller
    (fun i => [MachineState.pending, MachineState.pending,
      MachineState.running].getD i MachineState.pending)
    (fun m => decide (m = MachineState.running)) 5 2 (by decide) (by decide) (by decide)

/-! ### Claim C8: bounded ssh connection retry -/

/-- C8: for every address and key pair, the connect operation retries the
full attempt up to 30 times: it returns success on the first succeeding
attempt (attempt `j + 1` when the first `j` attempts fail), it fails with
`ConnectionFailed` exactly when all 30 attempts fail, each attempt carries
the 5-time-unit connection timeout, and no extra delay is inserted between
attempts. -/
theorem C8_ssh_connect (ip_address private_key : String) (fails : Nat → Bool) :
    (∀ j, j < 30 → fails j = false → (∀ k, k < j → fails k = true) →
      ssh_connect ip_address private_key fails = .ok (j + 1)) ∧
    (ssh_connect ip_address private_key fails = .error .connectionFailed ↔
      ∀ j, j < 30 → fails j = true) ∧
    ssh_connect_timeout = 5 ∧ ssh_retry_wait = 0 := by
  have hok : ∀ j, j < 30 → fails j = false → (∀ k, k < j → fails k = true) →
      ssh_connect ip_address private_key fails = .ok (j + 1) := by
    intro j hj hf hall
    have h := sshAttempts_ok fails j 0 30 (by simpa using hall) (by simpa using hf) hj
    simpa [ssh_connect] using h
  refine ⟨hok, ⟨?_, ?_⟩, rfl, rfl⟩
  · intro herr
    by_contra hnall
    push_neg at hnall
    obtain ⟨j, hj, hfj⟩ := hnall
    have hex : ∃ k, fails k = false ∧ k < 30 :=
      ⟨j, by simpa using hfj, hj⟩
    classical
    let j₀ := Nat.find hex
    have hspec := Nat.find_spec hex
    have hmin : ∀ k, k < j₀ → fails k = true := by
      intro k hk
      have := Nat.find_min hex hk
      by_contra hkf
      exact this ⟨by simpa using hkf, lt_trans hk hspec.2⟩
    have := hok j₀ hspec.2 hspec.1 hmin
    rw [this] at herr
    exact Except.noConfusion herr
  · intro hall
    have h := sshAttempts_err fails 30 0 (by simpa using hall)
    simpa [ssh_connect] using h

/-- Witness for C8: two failing attempts followed by a succeeding one give
success on the third attempt. -/
theorem C8_ssh_connect_witness :
    ssh_connect "198.51.100.7" "ecdsa-p256-key" (fun i => decide (i < 2)) = .ok 3 :=
  (C8_ssh_connect "198.51.100.7" "ecdsa-p256-key" (fun i => decide (i < 2))).1
    2 (by decide) (by decide) (by decide)

/-! ### Claim C9: the bootstrap disk size is a string when supplied -/

/-- C9: a `--bootstrap-disk-size` value supplied on the command line is
stored as a raw string, so the scratch-volume size `1_000_000_000 * value`
placed in the machine-creation request is string repetition, not the
numeric product — it is never a numeric value at all; only when the option
is absent does the integer default `20` produce the numeric size
`20_000_000_000`. -/
theorem C9_bootstrap_disk_size (region_opt instance_type_opt disk_opt : Option String) :
    (∀ s, disk_opt = some s →
      (get_args region_opt instance_type_opt disk_opt).bootstrap_disk_size = PyVal.str s ∧
      pyMulIntVal 1000000000
          (get_args region_opt instance_type_opt disk_opt).bootstrap_disk_size
        = PyVal.str (strRepeat 1000000000 s) ∧
      ∀ n : Int,
        pyMulIntVal 1000000000
            (get_args region_opt instance_type_opt disk_opt).bootstrap_disk_size
          ≠ PyVal.int n) ∧
    (disk_opt = none →
      pyMulIntVal 1000000000
          (get_args region_opt instance_type_opt disk_opt).bootstrap_disk_size
        = PyVal.int 20000000000) := by
  constructor
  · rintro s rfl
    refine ⟨rfl, rfl, ?_⟩
    intro n h
    simp [get_args, pyMulIntVal] at h
  · rintro rfl
    rfl

/-- Witness for C9: with `--bootstrap-disk-size 40` the request's size field
is the string `"40"` repeated a billion times (in particular not the number
40 000 000 000), and with the option absent it is the number
20 000 000 000. -/
theorem C9_bootstrap_disk_size_witness :
    (get_args none none (some "40")).bootstrap_disk_size = PyVal.str "40" ∧
    pyMulIntVal 1000000000 (get_args none none (some "40")).bootstrap_disk_size
      = PyVal.str (strRepeat 1000000000 "40") ∧
    pyMulIntVal 1000000000 (get_args none none (some "40")).bootstrap_disk_size
      ≠ PyVal.int 40000000000 ∧
    pyMulIntVal 1000000000 (get_args none none none).bootstrap_disk_size
      = PyVal.int 20000000000 := by
  have h := C9_bootstrap_disk_size none none (some "40")
  have h1 := h.1 "40" rfl
  have h2 := (C9_bootstrap_disk_size none none none).2 rfl
  exact ⟨h1.1, h1.2.1, h1.2.2 40000000000, h2⟩

/-! ### Selector lemmas -/

theorem mem_insertByDateDesc (x y : CatalogEntry) (l : List CatalogEntry) :
    y ∈ insertByDateDesc x l ↔ y = x ∨ y ∈ l := by
  induction l with
  | nil => simp [insertByDateDesc]
  | cons z t ih =>
    by_cases h : x.creation_date < z.creation_date
    · simp only [insertByDateDesc, h, if_true, List.mem_cons, ih]
      try tauto
    · simp only [insertByDateDesc, h, if_false, List.mem_cons]
      try tauto

theorem mem_sortByDateDesc (y : CatalogEntry) (l : List CatalogEntry) :
    y ∈ sortByDateDesc l ↔ y ∈ l := by
  induction l with
  | nil => simp [sortByDateDesc]
  | cons x t ih =>
    simp [sortByDateDesc, mem_insertByDateDesc, ih, List.mem_cons]

/-! ### Claim C4: the newest matching entry wins -/

/-- C4: for a catalog of two entries that both carry the name marker and the
`"distribution"` category but have different creation dates, if the newer
entry's current public version has a kept (compatible) local image then the
selector returns the id of a kept local image of the newer entry — in
either catalog order, and regardless of what the older entry offers. -/
theorem C4_newest_entry_wins (eNew eOld : CatalogEntry) (region instance_type : String)
    (hNew : entryMatches eNew = true) (hOld : entryMatches eOld = true)
    (hdate : eOld.creation_date < eNew.creation_date)
    (img : LocalImage) (rest : List LocalImage)
    (hkept : (publicVersions eNew).flatMap
        (fun v => v.local_images.filter (localImageKept region instance_type))
      = img :: rest) :
    get_minimal_ubuntu [eNew, eOld] region instance_type = .ok img.id ∧
    get_minimal_ubuntu [eOld, eNew] region instance_type = .ok img.id ∧
    (∃ v ∈ publicVersions eNew, img ∈ v.local_images) ∧
    localImageKept region instance_type img = true := by
  have hfilter1 : List.filter entryMatches [eNew, eOld] = [eNew, eOld] := by
    simp [hNew, hOld]
  have hfilter2 : List.filter entryMatches [eOld, eNew] = [eOld, eNew] := by
    simp [hNew, hOld]
  have hnlt : ¬ eNew.creation_date < eOld.creation_date := Nat.not_lt.mpr (Nat.le_of_lt hdate)
  have hsort1 : sortByDateDesc [eNew, eOld] = [eNew, eOld] := by
    simp [sortByDateDesc, insertByDateDesc, hnlt]
  have hsort2 : sortByDateDesc [eOld, eNew] = [eNew, eOld] := by
    simp [sortByDateDesc, insertByDateDesc, hdate]
  have hmem : img ∈ (publicVersions eNew).flatMap
      (fun v => v.local_images.filter (localImageKept region instance_type)) := by
    rw [hkept]; exact List.mem_cons_self img rest
  rw [List.mem_flatMap] at hmem
  obtain ⟨v, hv, himg⟩ := hmem
  rw [List.mem_filter] at himg
  refine ⟨?_, ?_, ⟨v, hv, himg.1⟩, himg.2⟩
  · simp only [get_minimal_ubuntu]
    rw [hfilter1, hsort1]
    simp only [List.flatMap_cons, List.flatMap_nil, List.append_nil, List.flatMap_append]
    rw [hkept]
    simp
  · simp only [get_minimal_ubuntu]
    rw [hfilter2, hsort2]
    simp only [List.flatMap_cons, List.flatMap_nil, List.append_nil, List.flatMap_append]
    rw [hkept]
    simp

/-- Witness for C4: two matching entries with creation dates 1 and 2, each
with a compatible local image; the selector returns the newer entry's image
id `"L2"` in both catalog orders. -/
theorem C4_newest_entry_wins_witness :
    get_minimal_ubuntu
        [{ name := "Ubuntu New", categories := ["distribution"], creation_date := 2,
           current_public_version := "V2",
           versions := [{ id := "V2", local_images :=
             [{ id := "L2", zone := "fr-par-1", compatible_commercial_types := ["DEV1-M"] }] }] },
         { name := "Ubuntu Old", categories := ["distribution"], creation_date := 1,
           current_public_version := "V1",
           versions := [{ id := "V1", local_images :=
             [{ id := "L1", zone := "par1", compatible_commercial_types := ["DEV1-M"] }] }] }]
        "fr-par-1" "DEV1-M" = .ok "L2" ∧
    get_minimal_ubuntu
        [{ name := "Ubuntu Old", categories := ["distribution"], creation_date := 1,
           current_public_version := "V1",
           versions := [{ id := "V1", local_images :=
             [{ id := "L1", zone := "par1", compatible_commercial_types := ["DEV1-M"] }] }] },
         { name := "Ubuntu New", categories := ["distribution"], creation_date := 2,
           current_public_version := "V2",
           versions := [{ id := "V2", local_images :=
             [{ id := "L2", zone := "fr-par-1", compatible_commercial_types := ["DEV1-M"] }] }] }]
        "fr-par-1" "DEV1-M" = .ok "L2" := by
  have h := C4_newest_entry_wins
    { name := "Ubuntu New", categories := ["distribution"], creation_date := 2,
      current_public_version := "V2",
      versions := [{ id := "V2", local_images :=
        [{ id := "L2", zone := "fr-par-1", compatible_commercial_types := ["DEV1-M"] }] }] }
    { name := "Ubuntu Old", categories := ["distribution"], creation_date := 1,
      current_public_version := "V1",
      versions := [{ id := "V1", local_images :=
        [{ id := "L1", zone := "par1", compatible_commercial_types := ["DEV1-M"] }] }] }
    "fr-par-1" "DEV1-M" (by decide) (by decide) (by decide)
    { id := "L2", zone := "fr-par-1", compatible_commercial_types := ["DEV1-M"] }
    [] (by decide)
  exact ⟨h.1, h.2.1⟩

/-! ### Claim C6: `ImageNotFound` before any resource creation -/

/-- C6: when no local image of any name-and-category-matching entry's
current public version passes the instance-type/zone filter (entries
without the `"distribution"` category are excluded regardless of name), the
selector fails with `ImageNotFound`; and in that case `main` stops during
Resolve with only the organization lookup and the catalog listing issued —
in particular no machine-, snapshot- or image-creation request. -/
theorem C6_image_not_found (catalog : List CatalogEntry) (region instance_type : String)
    (H : ∀ e ∈ catalog, entryMatches e = true →
      ∀ v ∈ publicVersions e, ∀ img ∈ v.local_images,
        localImageKept region instance_type img = false) :
    get_minimal_ubuntu catalog region instance_type = .error .imageNotFound ∧
    (∀ (env : Env) (args : Args) (fuel : Nat) (org : String) (orgs : List String),
      env.organization_ids = org :: orgs → env.catalog = catalog →
      args.region = region → args.instance_type = instance_type →
      mainRun env args fuel
        = some ([Event.getOrganizations, Event.listImages],
            Except.error RunErr.imageNotFound)) ∧
    (∀ a b c d, Event.createServer a b c d ∉ [Event.getOrganizations, Event.listImages]) ∧
    (∀ a b, Event.createSnapshot a b ∉ [Event.getOrganizations, Event.listImages]) ∧
    (∀ a b c, Event.createImage a b c ∉ [Event.getOrganizations, Event.listImages]) := by
  have hsel : get_minimal_ubuntu catalog region instance_type = .error .imageNotFound := by
    have hnil : ((sortByDateDesc (List.filter entryMatches catalog)).flatMap
        publicVersions).flatMap
          (fun v => v.local_images.filter (localImageKept region instance_type)) = [] := by
      rw [List.flatMap_eq_nil_iff]
      intro v hv
      rw [List.filter_eq_nil_iff]
      intro img himg
      rw [List.mem_flatMap] at hv
      obtain ⟨e, he, hve⟩ := hv
      have he' : e ∈ List.filter entryMatches catalog := (mem_sortByDateDesc e _).mp he
      rw [List.mem_filter] at he'
      have := H e he'.1 he'.2 v hve img himg
      simp [this]
    simp only [get_minimal_ubuntu]
    rw [hnil]
  refine ⟨hsel, ?_, by simp, by simp, by simp⟩
  intro env args fuel org orgs horg hcat hreg hit
  simp only [mainRun, horg, hcat, hreg, hit, hsel]

/-- Witness for C6: a catalog whose only entry matches the name marker but
lacks the `"distribution"` category is rejected even though it has a
compatible local image, and a mocked run stops after the two Resolve
calls. -/
theorem C6_image_not_found_witness :
    get_minimal_ubuntu
        [{ name := "Ubuntu 20.04 Focal", categories := ["misc"], creation_date := 7,
           current_public_version := "V1",
           versions := [{ id := "V1", local_images :=
             [{ id := "L1", zone := "fr-par-1",
                compatible_commercial_types := ["DEV1-M"] }] }] }]
        "fr-par-1" "DEV1-M" = .error .imageNotFound ∧
    mainRun
      { organization_ids := ["org-1"],
        catalog :=
          [{ name := "Ubuntu 20.04 Focal", categories := ["misc"], creation_date := 7,
             current_public_version := "V1",
             versions := [{ id := "V1", local_images :=
               [{ id := "L1", zone := "fr-par-1",
                  compatible_commercial_types := ["DEV1-M"] }] }] }],
        key_public := "PUB", key_private := "PRIV",
        created :=
          { id := "srv-1", state := MachineState.pending,
            public_ip := "203.0.113.9", volume1_id := "vol-1", arch := "x86_64" },
        bootResponses := fun _ =>
          { id := "srv-1", state := MachineState.running,
            public_ip := "203.0.113.9", volume1_id := "vol-1", arch := "x86_64" },
        sshFails := fun _ => false,
        files := ["nix-bootstrap.sh"],
        exit_status := 0,
        stopResponses := fun _ =>
          { id := "srv-1", state := MachineState.stoppedInPlace,
            public_ip := "203.0.113.9", volume1_id := "vol-1", arch := "x86_64" },
        snapResponses := fun _ => { id := "snap-1", state := SnapState.available },
        timestamp := "2020-01-01T00:00:00" }
      { region := "fr-par-1", instance_type := "DEV1-M",
        bootstrap_disk_size := PyVal.int 20 } 3
      = some ([Event.getOrganizations, Event.listImages],
          Except.error RunErr.imageNotFound) := by
  have h := C6_image_not_found
    [{ name := "Ubuntu 20.04 Focal", categories := ["misc"], creation_date := 7,
       current_public_version := "V1",
       versions := [{ id := "V1", local_images :=
         [{ id := "L1", zone := "fr-par-1",
            compatible_commercial_types := ["DEV1-M"] }] }] }]
    "fr-par-1" "DEV1-M" (by decide)
  exact ⟨h.1, h.2.1 _ _ 3 "org-1" [] rfl rfl rfl rfl⟩

/-! ### Whitespace-normalizer lemmas -/

theorem collapseWS_nil : collapseWS [] = [] := by
  rw [collapseWS]

theorem collapseWS_cons (c : Char) (rest : List Char) :
    collapseWS (c :: rest) =
      if isWS c then ' ' :: collapseWS (rest.dropWhile isWS)
      else c :: collapseWS rest := by
  rw [collapseWS]

theorem headNotWS_dropWhile (l : List Char) :
    headNotWS (l.dropWhile isWS) = true := by
  induction l with
  | nil => simp [headNotWS]
  | cons c t ih =>
    by_cases h : isWS c
    · simpa [List.dropWhile, h] using ih
    · simp [List.dropWhile, h, headNotWS]

theorem dropWhile_of_headNotWS (l : List Char) (h : headNotWS l = true) :
    l.dropWhile isWS = l := by
  cases l with
  | nil => rfl
  | cons c t =>
    simp only [headNotWS, Bool.not_eq_eq_eq_not, Bool.not_true] at h
    simp [List.dropWhile, h]

theorem noWSRun_tail (c : Char) (t : List Char) (h : noWSRun (c :: t) = true) :
    noWSRun t = true := by
  cases t with
  | nil => rfl
  | cons d t' =>
    simp only [noWSRun, Bool.and_eq_true] at h
    exact h.2

theorem noWSRun_cons (c : Char) (t : List Char) (hc : isWS c = false)
    (ht : noWSRun t = true) : noWSRun (c :: t) = true := by
  cases t with
  | nil => rfl
  | cons d t' => simp [noWSRun, hc, ht]

theorem noWSRun_ws_head (c : Char) (t : List Char) (h : noWSRun (c :: t) = true)
    (hc : isWS c = true) : headNotWS t = true := by
  cases t with
  | nil => rfl
  | cons d t' =>
    simp only [noWSRun, Bool.and_eq_true, Bool.not_eq_eq_eq_not, Bool.not_true] at h
    have := h.1
    simp only [hc, Bool.true_and] at this
    simpa [headNotWS] using this

theorem noWSRun_append_right (x y : List Char) (h : noWSRun (x ++ y) = true) :
    noWSRun y = true := by
  induction x with
  | nil => simpa using h
  | cons a x' ih => exact ih (noWSRun_tail a (x' ++ y) h)

theorem noWSRun_append_left (x y : List Char) (h : noWSRun (x ++ y) = true) :
    noWSRun x = true := by
  induction x with
  | nil => rfl
  | cons a x' ih =>
    cases x' with
    | nil => rfl
    | cons b x'' =>
      have h' : noWSRun (b :: x'') = true := ih (noWSRun_tail a _ h)
      simp only [List.cons_append, noWSRun, Bool.and_eq_true] at h ⊢
      exact ⟨h.1, h'⟩

theorem collapseWS_headNotWS (l : List Char) (h : headNotWS l = true) :
    headNotWS (collapseWS l) = true := by
  cases l with
  | nil => rw [collapseWS_nil]; rfl
  | cons c t =>
    simp only [headNotWS, Bool.not_eq_eq_eq_not, Bool.not_true] at h
    simp [collapseWS_cons, h, headNotWS]

theorem collapseWS_noWSRun (l : List Char) : noWSRun (collapseWS l) = true := by
  induction l using collapseWS.induct with
  | case1 => rw [collapseWS_nil]; rfl
  | case2 c rest hws ih =>
    rw [collapseWS_cons]
    simp only [hws, if_true]
    have hhd : headNotWS (collapseWS (rest.dropWhile isWS)) = true :=
      collapseWS_headNotWS _ (headNotWS_dropWhile rest)
    cases hm : collapseWS (rest.dropWhile isWS) with
    | nil => rfl
    | cons d t =>
      rw [hm] at hhd ih
      simp only [headNotWS, Bool.not_eq_eq_eq_not, Bool.not_true] at hhd
      simp [noWSRun, hhd, ih]
  | case3 c rest hws ih =>
    rw [collapseWS_cons]
    simp only [hws, if_false]
    exact noWSRun_cons c _ (by simpa using hws) ih

theorem collapseWS_allSpace (l : List Char) :
    ∀ c ∈ collapseWS l, isWS c = true → c = ' ' := by
  induction l using collapseWS.induct with
  | case1 => intro c hc; rw [collapseWS_nil] at hc; simp at hc
  | case2 c rest hws ih =>
    intro d hd hdws
    rw [collapseWS_cons] at hd
    simp only [hws, if_true, List.mem_cons] at hd
    rcases hd with rfl | hd
    · rfl
    · exact ih d hd hdws
  | case3 c rest hws ih =>
    intro d hd hdws
    rw [collapseWS_cons, if_neg hws] at hd
    rcases List.mem_cons.mp hd with rfl | hd
    · exact absurd hdws hws
    · exact ih d hd hdws

theorem collapseWS_fixed (l : List Char) (hrun : noWSRun l = true)
    (hsp : ∀ c ∈ l, isWS c = true → c = ' ') : collapseWS l = l := by
  induction l with
  | nil => exact collapseWS_nil
  | cons c rest ih =>
    by_cases hws : isWS c
    · have hc : c = ' ' := hsp c (List.mem_cons_self c rest) hws
      have hhd : headNotWS rest = true := noWSRun_ws_head c rest hrun hws
      rw [collapseWS_cons]
      simp only [hws, if_true, dropWhile_of_headNotWS rest hhd]
      rw [ih (noWSRun_tail c rest hrun) (fun d hd hdws => hsp d (List.mem_cons_of_mem c hd) hdws)]
      rw [hc]
    · rw [collapseWS_cons, if_neg hws,
        ih (noWSRun_tail c rest hrun) (fun d hd hdws => hsp d (List.mem_cons_of_mem c hd) hdws)]

theorem stripWS_decomp (l : List Char) :
    l.takeWhile isWS ++ (stripWS l
      ++ ((l.dropWhile isWS).reverse.takeWhile isWS).reverse) = l := by
  have h1 := List.takeWhile_append_dropWhile isWS l
  have h2 := List.takeWhile_append_dropWhile isWS (l.dropWhile isWS).reverse
  have h3 : l.dropWhile isWS = stripWS l
      ++ ((l.dropWhile isWS).reverse.takeWhile isWS).reverse := by
    have h4 := congrArg List.reverse h2
    simp only [List.reverse_append, List.reverse_reverse] at h4
    exact h4.symm
  rw [← h3, h1]

theorem stripWS_noWSRun (l : List Char) (h : noWSRun l = true) :
    noWSRun (stripWS l) = true := by
  have hd := stripWS_decomp l
  rw [← hd] at h
  exact noWSRun_append_left _ _ (noWSRun_append_right _ _ h)

theorem stripWS_allSpace (l : List Char) (h : ∀ c ∈ l, isWS c = true → c = ' ') :
    ∀ c ∈ stripWS l, isWS c = true → c = ' ' := by
  intro c hc hws
  refine h c ?_ hws
  have hd := stripWS_decomp l
  rw [← hd]
  simp [hc]

theorem stripWS_headNotWS (l : List Char) : headNotWS (stripWS l) = true := by
  cases hs : stripWS l with
  | nil => rfl
  | cons e t =>
    have h3 : l.dropWhile isWS = stripWS l
        ++ ((l.dropWhile isWS).reverse.takeWhile isWS).reverse := by
      have h2 := List.takeWhile_append_dropWhile isWS (l.dropWhile isWS).reverse
      have h4 := congrArg List.reverse h2
      simp only [List.reverse_append, List.reverse_reverse] at h4
      exact h4.symm
    have hy := headNotWS_dropWhile l
    rw [h3, hs] at hy
    simpa [headNotWS] using hy

theorem stripWS_lastNotWS (l : List Char) : headNotWS (stripWS l).reverse = true := by
  simp only [stripWS, List.reverse_reverse]
  exact headNotWS_dropWhile _

theorem stripWS_fixed (l : List Char) (h1 : headNotWS l = true)
    (h2 : headNotWS l.reverse = true) : stripWS l = l := by
  simp only [stripWS, dropWhile_of_headNotWS l h1, dropWhile_of_headNotWS l.reverse h2,
    List.reverse_reverse]

theorem normalizeLine_good (l : List Char) :
    noWSRun (normalizeLine l) = true ∧
    (∀ c ∈ normalizeLine l, isWS c = true → c = ' ') ∧
    headNotWS (normalizeLine l) = true ∧
    headNotWS (normalizeLine l).reverse = true :=
  ⟨stripWS_noWSRun _ (collapseWS_noWSRun l),
   stripWS_allSpace _ (collapseWS_allSpace l),
   stripWS_headNotWS _, stripWS_lastNotWS _⟩

theorem normalizeLine_fixed (l : List Char) :
    normalizeLine (normalizeLine l) = normalizeLine l := by
  obtain ⟨hrun, hsp, hhd, hlast⟩ := normalizeLine_good l
  show stripWS (collapseWS (normalizeLine l)) = normalizeLine l
  rw [collapseWS_fixed (normalizeLine l) hrun hsp,
    stripWS_fixed (normalizeLine l) hhd hlast]

theorem filter_map_self {α : Type} (L : List α) (f : α → α) (p : α → Bool)
    (h : ∀ x ∈ L, f x = x ∧ p x = true) : (L.map f).filter p = L := by
  induction L with
  | nil => rfl
  | cons a t ih =>
    have ha := h a (List.mem_cons_self a t)
    simp only [List.map_cons, List.filter_cons, ha.1, ha.2, if_true]
    rw [ih (fun x hx => h x (List.mem_cons_of_mem a hx))]

/-! ### Claim C10: the whitespace normalizer -/

/-- C10: `flatten_whitespace` is idempotent, and every line it emits is
non-empty, has no two consecutive whitespace characters, and has no leading
or trailing whitespace. -/
theorem C10_flatten_whitespace_idempotent (lines : List (List Char)) :
    flatten_whitespace (flatten_whitespace lines) = flatten_whitespace lines ∧
    ∀ l ∈ flatten_whitespace lines,
      l ≠ [] ∧ noWSRun l = true ∧ headNotWS l = true ∧ headNotWS l.reverse = true := by
  have hmem : ∀ l ∈ flatten_whitespace lines, normalizeLine l = l ∧ (!l.isEmpty) = true := by
    intro l hl
    simp only [flatten_whitespace, List.mem_filter, List.mem_map] at hl
    obtain ⟨⟨x, _, rfl⟩, hne⟩ := hl
    exact ⟨normalizeLine_fixed x, hne⟩
  constructor
  · exact filter_map_self _ _ _ hmem
  · intro l hl
    have hne : l ≠ [] := by
      have := (hmem l hl).2
      simpa [List.isEmpty_iff] using this
    have hfix := (hmem l hl).1
    obtain ⟨hrun, _, hhd, hlast⟩ := normalizeLine_good l
    rw [hfix] at hrun hhd hlast
    exact ⟨hne, hrun, hhd, hlast⟩

/-! ### `read_lines` merge lemmas -/

theorem interleave_push_left {α : Type} {u v c : List α} (x : α) (h : Interleave u v c) :
    Interleave (u ++ [x]) v (c ++ [x]) := by
  induction h with
  | nil => simpa using Interleave.left x Interleave.nil
  | left y _ ih => simpa using Interleave.left y ih
  | right y _ ih => simpa using Interleave.right y ih

theorem interleave_push_right {α : Type} {u v c : List α} (x : α) (h : Interleave u v c) :
    Interleave u (v ++ [x]) (c ++ [x]) := by
  induction h with
  | nil => simpa using Interleave.right x Interleave.nil
  | left y _ ih => simpa using Interleave.left y ih
  | right y _ ih => simpa using Interleave.right y ih

theorem interleave_split {α : Type} {u v c : List α} (h : Interleave u v c) :
    ∀ c₁ c₂, c = c₁ ++ c₂ →
      ∃ u₁ u₂ v₁ v₂, u = u₁ ++ u₂ ∧ v = v₁ ++ v₂ ∧
        Interleave u₁ v₁ c₁ ∧ Interleave u₂ v₂ c₂ := by
  induction h with
  | nil =>
    intro c₁ c₂ hc
    obtain ⟨rfl, rfl⟩ := List.append_eq_nil.mp hc.symm
    exact ⟨[], [], [], [], rfl, rfl, Interleave.nil, Interleave.nil⟩
  | left x h ih =>
    intro c₁ c₂ hc
    cases c₁ with
    | nil =>
      simp only [List.nil_append] at hc
      subst hc
      exact ⟨[], _, [], _, rfl, rfl, Interleave.nil, Interleave.left x h⟩
    | cons y c₁' =>
      rw [List.cons_append] at hc
      injection hc with h1 h2
      subst h1
      obtain ⟨u₁, u₂, v₁, v₂, hu, hv, hI1, hI2⟩ := ih c₁' c₂ h2
      exact ⟨x :: u₁, u₂, v₁, v₂, by simp [hu], hv, Interleave.left x hI1, hI2⟩
  | right x h ih =>
    intro c₁ c₂ hc
    cases c₁ with
    | nil =>
      simp only [List.nil_append] at hc
      subst hc
      exact ⟨[], _, [], _, rfl, rfl, Interleave.nil, Interleave.right x h⟩
    | cons y c₁' =>
      rw [List.cons_append] at hc
      injection hc with h1 h2
      subst h1
      obtain ⟨u₁, u₂, v₁, v₂, hu, hv, hI1, hI2⟩ := ih c₁' c₂ h2
      exact ⟨u₁, u₂, x :: v₁, v₂, hu, by simp [hv], Interleave.right x hI1, hI2⟩

theorem mergeInv_init {α : Type} (la lb : List α) : MergeInv la lb (initState la lb) := by
  refine ⟨⟨[], [], rfl, rfl, Interleave.nil⟩, ?_, ?_, ?_⟩ <;>
    intro h <;> simp [initState] at h

theorem mergeInv_step {α : Type} (la lb : List α) (l : RLabel) (s s' : RState α)
    (hI : MergeInv la lb s) (hs : stepLabel l s = some s') : MergeInv la lb s' := by
  obtain ⟨⟨u, v, hu, hv, hiv⟩, hA, hB, hH⟩ := hI
  cases l with
  | prodA =>
    simp only [stepLabel] at hs
    by_cases hd : s.aDone = true
    · rw [if_pos hd] at hs
      exact Option.noConfusion hs
    · rw [if_neg hd] at hs
      cases ha : s.a with
      | cons x t =>
        rw [ha] at hs
        obtain rfl := Option.some.inj hs
        refine ⟨⟨u ++ [x], v, ?_, hv, ?_⟩, ?_, hB, ?_⟩
        · rw [hu, ha]; simp
        · simpa [List.append_assoc] using interleave_push_left x hiv
        · intro h; exact absurd h hd
        · intro h; exact ⟨(hH h).1, (hH h).2⟩
      | nil =>
        rw [ha] at hs
        obtain rfl := Option.some.inj hs
        refine ⟨⟨u, v, ?_, hv, hiv⟩, fun _ => rfl, hB, fun h => ⟨rfl, (hH h).2⟩⟩
        simp only [ha] at hu
        simpa using hu
  | prodB =>
    simp only [stepLabel] at hs
    by_cases hd : s.bDone = true
    · rw [if_pos hd] at hs
      exact Option.noConfusion hs
    · rw [if_neg hd] at hs
      cases hb : s.b with
      | cons x t =>
        rw [hb] at hs
        obtain rfl := Option.some.inj hs
        refine ⟨⟨u, v ++ [x], hu, ?_, ?_⟩, hA, ?_, ?_⟩
        · rw [hv, hb]; simp
        · simpa [List.append_assoc] using interleave_push_right x hiv
        · intro h; exact absurd h hd
        · intro h; exact ⟨(hH h).1, (hH h).2⟩
      | nil =>
        rw [hb] at hs
        obtain rfl := Option.some.inj hs
        refine ⟨⟨u, v, hu, ?_, hiv⟩, hA, fun _ => rfl, fun h => ⟨(hH h).1, rfl⟩⟩
        simp only [hb] at hv
        simpa using hv
  | cons =>
    simp only [stepLabel] at hs
    by_cases hh : s.halted = true
    · rw [if_pos hh] at hs
      exact Option.noConfusion hs
    · rw [if_neg hh] at hs
      by_cases hc : s.checking = true
      · rw [if_pos hc] at hs
        by_cases hab : (s.aDone && s.bDone) = true
        · rw [if_pos hab] at hs
          obtain rfl := Option.some.inj hs
          simp only [Bool.and_eq_true] at hab
          exact ⟨⟨u, v, hu, hv, hiv⟩, hA, hB, fun _ => hab⟩
        · rw [if_neg hab] at hs
          obtain rfl := Option.some.inj hs
          exact ⟨⟨u, v, hu, hv, hiv⟩, hA, hB, fun h => absurd h hh⟩
      · rw [if_neg hc] at hs
        cases hq : s.q with
        | cons x t =>
          rw [hq] at hs
          obtain rfl := Option.some.inj hs
          refine ⟨⟨u, v, hu, hv, ?_⟩, hA, hB, fun h => absurd h hh⟩
          rw [hq] at hiv
          simpa [List.append_assoc] using hiv
        | nil =>
          rw [hq] at hs
          obtain rfl := Option.some.inj hs
          refine ⟨⟨u, v, hu, hv, ?_⟩, hA, hB, fun h => absurd h hh⟩
          simp only [hq] at hiv
          simpa using hiv

theorem mergeInv_run {α : Type} (la lb : List α) (sched : List RLabel) :
    ∀ (s s' : RState α), MergeInv la lb s → runSched sched s = some s' →
      MergeInv la lb s' := by
  induction sched with
  | nil =>
    intro s s' hI hrun
    obtain rfl := Option.some.inj hrun
    exact hI
  | cons l ls ih =>
    intro s s' hI hrun
    simp only [runSched] at hrun
    cases hstep : stepLabel l s with
    | none => rw [hstep] at hrun; exact Option.noConfusion hrun
    | some s₁ =>
      rw [hstep] at hrun
      exact ih s₁ s' (mergeInv_step la lb l s s₁ hI hstep) hrun

theorem runSched_append {α : Type} (xs ys : List RLabel) :
    ∀ s : RState α, runSched (xs ++ ys) s = (runSched xs s).bind (runSched ys) := by
  induction xs with
  | nil => intro s; rfl
  | cons l ls ih =>
    intro s
    simp only [List.cons_append, runSched]
    cases stepLabel l s with
    | none => rfl
    | some s₁ => exact ih s₁

theorem runSched_drain {α : Type} (q : List α) :
    ∀ s : RState α, s.q = q → s.aDone = true → s.bDone = true →
      s.halted = false → s.checking = false →
      ∃ s', runSched (List.replicate (q.length + 2) RLabel.cons) s = some s' ∧
        s'.halted = true ∧ s'.out = s.out ++ q ∧ s'.q = [] := by
  induction q with
  | nil =>
    intro s hq hA hB hH hC
    refine ⟨{ s with checking := true, halted := true }, ?_, rfl, by simp, by simp [hq]⟩
    have h1 : stepLabel RLabel.cons s = some { s with checking := true } := by
      simp [stepLabel, hH, hC, hq]
    have h2 : stepLabel RLabel.cons { s with checking := true }
        = some { s with checking := true, halted := true } := by
      simp [stepLabel, hH, hA, hB]
    simp [List.replicate, runSched, h1, h2]
  | cons x t ih =>
    intro s hq hA hB hH hC
    have hstep : stepLabel RLabel.cons s = some { s with q := t, out := s.out ++ [x] } := by
      simp only [stepLabel, hH, hC, hq]
      simp
    have hrep : List.replicate ((x :: t).length + 2) RLabel.cons
        = RLabel.cons :: List.replicate (t.length + 2) RLabel.cons := by
      simp [List.replicate_succ, List.length_cons]
    obtain ⟨s', hrun, hhal, hout, hq'⟩ :=
      ih { s with q := t, out := s.out ++ [x] } rfl hA hB hH hC
    refine ⟨s', ?_, hhal, ?_, hq'⟩
    · rw [hrep]
      simp only [runSched, hstep]
      exact hrun
    · rw [hout]
      simp [List.append_assoc]

/-! ### Claim C3 (amended): correctness of the `read_lines` merge -/

/-- C3 (amended): under every interleaving of the two reader threads and
the consumer, (1) the yielded lines together with the lines still queued
form an interleaving of prefixes of the two streams, (2) the yielded lines
alone form an interleaving of prefixes of the two streams — so each
stream's lines are yielded without loss of relative order, duplication or
invention, (3) when the consumer has broken out, the yielded lines plus the
residual queue are exactly the multiset union of the two streams (any
missing yielded line is still in the queue), (4) once both reader threads
have terminated and the consumer is not between its empty-queue observation
and its liveness check, continuing with consumer steps drains the whole
queue and terminates, and (5) the merge only terminates after both reader
threads have terminated.  (The original claim — that the yielded output
itself always contains every line — fails: see the counterexample, where
the consumer breaks with lines still queued.) -/
theorem C3_read_lines_merge {α : Type} (la lb : List α) (sched : List RLabel)
    (s : RState α) (hrun : runSched sched (initState la lb) = some s) :
    (∃ ka kb, la = ka ++ s.a ∧ lb = kb ++ s.b ∧ Interleave ka kb (s.out ++ s.q)) ∧
    (∃ pa ra pb rb, la = pa ++ ra ∧ lb = pb ++ rb ∧ Interleave pa pb s.out) ∧
    (s.halted = true → Interleave la lb (s.out ++ s.q)) ∧
    (s.aDone = true → s.bDone = true → s.halted = false → s.checking = false →
      ∃ s', runSched (sched ++ List.replicate (s.q.length + 2) RLabel.cons)
          (initState la lb) = some s' ∧
        s'.halted = true ∧ s'.out = s.out ++ s.q ∧ s'.q = []) ∧
    (s.halted = true → s.aDone = true ∧ s.bDone = true) := by
  have hI := mergeInv_run la lb sched (initState la lb) s (mergeInv_init la lb) hrun
  obtain ⟨⟨u, v, hu, hv, hiv⟩, hA, hB, hH⟩ := hI
  refine ⟨⟨u, v, hu, hv, hiv⟩, ?_, ?_, ?_, hH⟩
  · obtain ⟨u₁, u₂, v₁, v₂, hu12, hv12, hI1, _⟩ :=
      interleave_split hiv s.out s.q rfl
    exact ⟨u₁, u₂ ++ s.a, v₁, v₂ ++ s.b,
      by rw [hu, hu12, List.append_assoc],
      by rw [hv, hv12, List.append_assoc], hI1⟩
  · intro hhal
    obtain ⟨hda, hdb⟩ := hH hhal
    have ha := hA hda
    have hb := hB hdb
    rw [ha, List.append_nil] at hu
    rw [hb, List.append_nil] at hv
    rw [hu, hv]
    exact hiv
  · intro hda hdb hhal hchk
    obtain ⟨s', hrun', hhal', hout', hq'⟩ :=
      runSched_drain s.q s rfl hda hdb hhal hchk
    refine ⟨s', ?_, hhal', hout', hq'⟩
    rw [runSched_append, hrun]
    exact hrun'

/-- Witness for C3 (amended): a complete interleaving on the claim's
streams A = ["a1","a2"], B = ["b1"] terminates with all three lines
yielded, "a1" before "a2", and the amended theorem certifies the yielded
lines plus the (empty) residual queue as an exact merge of the streams. -/
theorem C3_read_lines_merge_witness :
    Interleave ["a1", "a2"] ["b1"] ["a1", "b1", "a2"] := by
  have h := C3_read_lines_merge ["a1", "a2"] ["b1"]
    [RLabel.prodA, RLabel.cons, RLabel.prodB, RLabel.cons, RLabel.prodA,
     RLabel.cons, RLabel.prodA, RLabel.prodB, RLabel.cons, RLabel.cons]
    { a := [], b := [], aDone := true, bDone := true, q := [],
      out := ["a1", "b1", "a2"], checking := true, halted := true }
    (by decide)
  exact h.2.2.1 rfl

/-- C3 counterexample: the claim fails as stated — there is an interleaving
of the two reader threads and the consumer on streams A = ["a1","a2"] and
B = ["b1"] under which `read_lines` terminates having yielded nothing: the
consumer's `q.get` times out on the still-empty queue, then both readers
push all their lines and terminate, and the consumer's subsequent liveness
check sees no live thread and breaks with all three lines still queued. -/
theorem C3_read_lines_counterexample :
    (runSched [RLabel.cons, RLabel.prodA, RLabel.prodA, RLabel.prodA,
        RLabel.prodB, RLabel.prodB, RLabel.cons]
      (initState ["a1", "a2"] ["b1"])).map (fun s => (s.halted, s.out, s.q))
      = some (true, [], ["a1", "a2", "b1"]) := by
  decide

/-! ### Orchestrator run lemmas -/

theorem mainRun_happy (env : Env) (args : Args) (fuel : Nat)
    (org : String) (orgs : List String) (horg : env.organization_ids = org :: orgs)
    (image_id : String)
    (himg : get_minimal_ubuntu env.catalog args.region args.instance_type = .ok image_id)
    (ib : Nat) (hib : ib < fuel)
    (hbootpre : ∀ k, k < ib → ¬ (env.bootResponses k).state = MachineState.running)
    (hboot : (env.bootResponses ib).state = MachineState.running)
    (ja : Nat) (hja : ja < 30)
    (hsshpre : ∀ k, k < ja → env.sshFails k = true)
    (hssh : env.sshFails ja = false)
    (hstat : env.exit_status = -1 ∨ env.exit_status = 0)
    (istop : Nat) (histop : istop < fuel)
    (hstoppre : ∀ k, k < istop → ¬ (env.stopResponses k).state = MachineState.stoppedInPlace)
    (hstop : (env.stopResponses istop).state = MachineState.stoppedInPlace)
    (iq : Nat) (hiq : iq < fuel)
    (hsnappre : ∀ k, k < iq → ¬ (env.snapResponses k).state = SnapState.available)
    (hsnap : (env.snapResponses iq).state = SnapState.available) :
    mainRun env args fuel = some (
      [Event.getOrganizations, Event.listImages,
       Event.createServer image_id (pyMulIntVal 1000000000 args.bootstrap_disk_size)
         20000000000 ("AUTHORIZED_KEY=" ++ env.key_public),
       Event.serverAction env.created.id "poweron"]
      ++ List.replicate (ib + 1) Event.getServer
      ++ List.replicate (ja + 1) (Event.sshConnect (env.bootResponses ib).public_ip)
      ++ [Event.openSftp]
      ++ env.files.map (fun f => Event.sftpPut f ("/tmp/" ++ f))
      ++ [Event.execCommand "bash /tmp/nix-bootstrap.sh", Event.recvExitStatus]
      ++ List.replicate (istop + 1) Event.getServer
      ++ [Event.createSnapshot (env.stopResponses istop).volume1_id
            ("nixos-" ++ env.timestamp)]
      ++ List.replicate (iq + 1) Event.getSnapshot
      ++ [Event.createImage ("nixos-" ++ env.timestamp) (env.snapResponses iq).id
            (env.stopResponses istop).arch,
          Event.serverAction (env.stopResponses istop).id "terminate"],
      Except.ok ()) := by
  have hb := pollCount_eq env.bootResponses
    (fun m => decide (m.state = MachineState.running)) ib 0 fuel
    (fun k hk => by simpa using hbootpre k hk) (by simpa using hboot) hib
  simp only [Nat.zero_add] at hb
  have hc : ssh_connect (env.bootResponses ib).public_ip env.key_private env.sshFails
      = .ok (ja + 1) := by
    have h := sshAttempts_ok env.sshFails ja 0 30
      (fun k hk => by simpa using hsshpre k hk) (by simpa using hssh) hja
    simpa [ssh_connect] using h
  have hcond : ¬ (env.exit_status ≠ -1 ∧ env.exit_status ≠ 0) := by
    rcases hstat with h | h <;> simp [h]
  have hst := pollCount_eq env.stopResponses
    (fun m => decide (m.state = MachineState.stoppedInPlace)) istop 0 fuel
    (fun k hk => by simpa using hstoppre k hk) (by simpa using hstop) histop
  simp only [Nat.zero_add] at hst
  have hsn := pollCount_eq env.snapResponses
    (fun s => decide (s.state = SnapState.available)) iq 0 fuel
    (fun k hk => by simpa using hsnappre k hk) (by simpa using hsnap) hiq
  simp only [Nat.zero_add] at hsn
  simp only [mainRun, horg, himg, hb, hc, hst, hsn]
  rw [if_neg hcond]

theorem mainRun_fail (env : Env) (args : Args) (fuel : Nat)
    (org : String) (orgs : List String) (horg : env.organization_ids = org :: orgs)
    (image_id : String)
    (himg : get_minimal_ubuntu env.catalog args.region args.instance_type = .ok image_id)
    (ib : Nat) (hib : ib < fuel)
    (hbootpre : ∀ k, k < ib → ¬ (env.bootResponses k).state = MachineState.running)
    (hboot : (env.bootResponses ib).state = MachineState.running)
    (ja : Nat) (hja : ja < 30)
    (hsshpre : ∀ k, k < ja → env.sshFails k = true)
    (hssh : env.sshFails ja = false)
    (hstat : env.exit_status ≠ -1 ∧ env.exit_status ≠ 0) :
    mainRun env args fuel = some (
      [Event.getOrganizations, Event.listImages,
       Event.createServer image_id (pyMulIntVal 1000000000 args.bootstrap_disk_size)
         20000000000 ("AUTHORIZED_KEY=" ++ env.key_public),
       Event.serverAction env.created.id "poweron"]
      ++ List.replicate (ib + 1) Event.getServer
      ++ List.replicate (ja + 1) (Event.sshConnect (env.bootResponses ib).public_ip)
      ++ [Event.openSftp]
      ++ env.files.map (fun f => Event.sftpPut f ("/tmp/" ++ f))
      ++ [Event.execCommand "bash /tmp/nix-bootstrap.sh", Event.recvExitStatus],
      Except.error RunErr.bootstrapFailed) := by
  have hb := pollCount_eq env.bootResponses
    (fun m => decide (m.state = MachineState.running)) ib 0 fuel
    (fun k hk => by simpa using hbootpre k hk) (by simpa using hboot) hib
  simp only [Nat.zero_add] at hb
  have hc : ssh_connect (env.bootResponses ib).public_ip env.key_private env.sshFails
      = .ok (ja + 1) := by
    have h := sshAttempts_ok env.sshFails ja 0 30
      (fun k hk => by simpa using hsshpre k hk) (by simpa using hssh) hja
    simpa [ssh_connect] using h
  simp only [mainRun, horg, himg, hb, hc]
  rw [if_pos hstat]

/-! ### Claim C1: the happy-path call order of the orchestrator -/

/-- C1: in every run in which all collaborators succeed (the boot poll
reaches `running`, ssh connects within the retry bound, the bootstrap exit
status is 0, the stop poll reaches `stopped in place` and the snapshot poll
reaches `available`), the orchestrator issues exactly, and in exactly this
order: the organization lookup and catalog listing (Resolve), the machine
creation with the two volumes and the embedded public key (Create), the
power-on action followed by the boot poll (Boot), the ssh connection,
upload and streamed bootstrap command with its exit status read
(Bootstrap), the stop poll with no stop action (Stop), the snapshot
creation and poll (Snapshot), the image creation from the snapshot and
machine architecture (Publish), and the terminate action (Cleanup) — and
the run ends successfully. -/
theorem C1_happy_path (env : Env) (args : Args) (fuel : Nat)
    (org : String) (orgs : List String) (horg : env.organization_ids = org :: orgs)
    (image_id : String)
    (himg : get_minimal_ubuntu env.catalog args.region args.instance_type = .ok image_id)
    (ib : Nat) (hib : ib < fuel)
    (hbootpre : ∀ k, k < ib → ¬ (env.bootResponses k).state = MachineState.running)
    (hboot : (env.bootResponses ib).state = MachineState.running)
    (ja : Nat) (hja : ja < 30)
    (hsshpre : ∀ k, k < ja → env.sshFails k = true)
    (hssh : env.sshFails ja = false)
    (hstat : env.exit_status = 0)
    (istop : Nat) (histop : istop < fuel)
    (hstoppre : ∀ k, k < istop → ¬ (env.stopResponses k).state = MachineState.stoppedInPlace)
    (hstop : (env.stopResponses istop).state = MachineState.stoppedInPlace)
    (iq : Nat) (hiq : iq < fuel)
    (hsnappre : ∀ k, k < iq → ¬ (env.snapResponses k).state = SnapState.available)
    (hsnap : (env.snapResponses iq).state = SnapState.available) :
    mainRun env args fuel = some (
      [Event.getOrganizations, Event.listImages,
       Event.createServer image_id (pyMulIntVal 1000000000 args.bootstrap_disk_size)
         20000000000 ("AUTHORIZED_KEY=" ++ env.key_public),
       Event.serverAction env.created.id "poweron"]
      ++ List.replicate (ib + 1) Event.getServer
      ++ List.replicate (ja + 1) (Event.sshConnect (env.bootResponses ib).public_ip)
      ++ [Event.openSftp]
      ++ env.files.map (fun f => Event.sftpPut f ("/tmp/" ++ f))
      ++ [Event.execCommand "bash /tmp/nix-bootstrap.sh", Event.recvExitStatus]
      ++ List.replicate (istop + 1) Event.getServer
      ++ [Event.createSnapshot (env.stopResponses istop).volume1_id
            ("nixos-" ++ env.timestamp)]
      ++ List.replicate (iq + 1) Event.getSnapshot
      ++ [Event.createImage ("nixos-" ++ env.timestamp) (env.snapResponses iq).id
            (env.stopResponses istop).arch,
          Event.serverAction (env.stopResponses istop).id "terminate"],
      Except.ok ()) :=
  mainRun_happy env args fuel org orgs horg image_id himg ib hib hbootpre hboot
    ja hja hsshpre hssh (Or.inr hstat) istop histop hstoppre hstop iq hiq hsnappre hsnap

/-! ### Claim C2: a bad bootstrap exit status aborts before any cleanup -/

/-- C2: when the bootstrap command's exit status is outside {0, -1} (-1
encodes "no explicit status available"), the run fails with
`BootstrapFailed` immediately after reading the status: the call trace ends
at the status read, and contains no further machine poll, no snapshot
creation, no image creation and no terminate action — the machine is left
running.  Conversely an exit status of 0 or -1 does not abort: the run
completes successfully. -/
theorem C2_bootstrap_failure (env : Env) (args : Args) (fuel : Nat)
    (org : String) (orgs : List String) (horg : env.organization_ids = org :: orgs)
    (image_id : String)
    (himg : get_minimal_ubuntu env.catalog args.region args.instance_type = .ok image_id)
    (ib : Nat) (hib : ib < fuel)
    (hbootpre : ∀ k, k < ib → ¬ (env.bootResponses k).state = MachineState.running)
    (hboot : (env.bootResponses ib).state = MachineState.running)
    (ja : Nat) (hja : ja < 30)
    (hsshpre : ∀ k, k < ja → env.sshFails k = true)
    (hssh : env.sshFails ja = false)
    (istop : Nat) (histop : istop < fuel)
    (hstoppre : ∀ k, k < istop → ¬ (env.stopResponses k).state = MachineState.stoppedInPlace)
    (hstop : (env.stopResponses istop).state = MachineState.stoppedInPlace)
    (iq : Nat) (hiq : iq < fuel)
    (hsnappre : ∀ k, k < iq → ¬ (env.snapResponses k).state = SnapState.available)
    (hsnap : (env.snapResponses iq).state = SnapState.available) :
    (env.exit_status ≠ -1 ∧ env.exit_status ≠ 0 →
      mainRun env args fuel = some (
        [Event.getOrganizations, Event.listImages,
       Event.createServer image_id (pyMulIntVal 1000000000 args.bootstrap_disk_size)
         20000000000 ("AUTHORIZED_KEY=" ++ env.key_public),
       Event.serverAction env.created.id "poweron"]
      ++ List.replicate (ib + 1) Event.getServer
      ++ List.replicate (ja + 1) (Event.sshConnect (env.bootResponses ib).public_ip)
      ++ [Event.openSftp]
      ++ env.files.map (fun f => Event.sftpPut f ("/tmp/" ++ f))
      ++ [Event.execCommand "bash /tmp/nix-bootstrap.sh", Event.recvExitStatus],
        Except.error RunErr.bootstrapFailed) ∧
      ([Event.getOrganizations, Event.listImages,
       Event.createServer image_id (pyMulIntVal 1000000000 args.bootstrap_disk_size)
         20000000000 ("AUTHORIZED_KEY=" ++ env.key_public),
       Event.serverAction env.created.id "poweron"]
      ++ List.replicate (ib + 1) Event.getServer
      ++ List.replicate (ja + 1) (Event.sshConnect (env.bootResponses ib).public_ip)
      ++ [Event.openSftp]
      ++ env.files.map (fun f => Event.sftpPut f ("/tmp/" ++ f))
      ++ [Event.execCommand "bash /tmp/nix-bootstrap.sh", Event.recvExitStatus]).getLast? = some Event.recvExitStatus ∧
      (∀ v n, Event.createSnapshot v n ∉
        ([Event.getOrganizations, Event.listImages,
       Event.createServer image_id (pyMulIntVal 1000000000 args.bootstrap_disk_size)
         20000000000 ("AUTHORIZED_KEY=" ++ env.key_public),
       Event.serverAction env.created.id "poweron"]
      ++ List.replicate (ib + 1) Event.getServer
      ++ List.replicate (ja + 1) (Event.sshConnect (env.bootResponses ib).public_ip)
      ++ [Event.openSftp]
      ++ env.files.map (fun f => Event.sftpPut f ("/tmp/" ++ f))
      ++ [Event.execCommand "bash /tmp/nix-bootstrap.sh", Event.recvExitStatus])) ∧
      (∀ n r a, Event.createImage n r a ∉
        ([Event.getOrganizations, Event.listImages,
       Event.createServer image_id (pyMulIntVal 1000000000 args.bootstrap_disk_size)
         20000000000 ("AUTHORIZED_KEY=" ++ env.key_public),
       Event.serverAction env.created.id "poweron"]
      ++ List.replicate (ib + 1) Event.getServer
      ++ List.replicate (ja + 1) (Event.sshConnect (env.bootResponses ib).public_ip)
      ++ [Event.openSftp]
      ++ env.files.map (fun f => Event.sftpPut f ("/tmp/" ++ f))
      ++ [Event.execCommand "bash /tmp/nix-bootstrap.sh", Event.recvExitStatus])) ∧
      (∀ sid, Event.serverAction sid "terminate" ∉
        ([Event.getOrganizations, Event.listImages,
       Event.createServer image_id (pyMulIntVal 1000000000 args.bootstrap_disk_size)
         20000000000 ("AUTHORIZED_KEY=" ++ env.key_public),
       Event.serverAction env.created.id "poweron"]
      ++ List.replicate (ib + 1) Event.getServer
      ++ List.replicate (ja + 1) (Event.sshConnect (env.bootResponses ib).public_ip)
      ++ [Event.openSftp]
      ++ env.files.map (fun f => Event.sftpPut f ("/tmp/" ++ f))
      ++ [Event.execCommand "bash /tmp/nix-bootstrap.sh", Event.recvExitStatus]))) ∧
    (env.exit_status = -1 ∨ env.exit_status = 0 →
      ∃ T, mainRun env args fuel = some (T, Except.ok ())) := by
  constructor
  · intro hstat
    refine ⟨mainRun_fail env args fuel org orgs horg image_id himg ib hib hbootpre hboot
      ja hja hsshpre hssh hstat, ?_, ?_, ?_, ?_⟩
    · rw [List.getLast?_append_of_ne_nil _ (by simp)]
      rfl
    · intro v n h
      simp [List.mem_append, List.mem_replicate, List.mem_map] at h
    · intro n r a h
      simp [List.mem_append, List.mem_replicate, List.mem_map] at h
    · intro sid h
      simp [List.mem_append, List.mem_replicate, List.mem_map] at h
  · intro hstat
    exact ⟨_, mainRun_happy env args fuel org orgs horg image_id himg ib hib hbootpre hboot
      ja hja hsshpre hssh hstat istop histop hstoppre hstop iq hiq hsnappre hsnap⟩

/-- Witness for C1: a fully mocked happy-path run (boot poll succeeds on
the third fetch, ssh on the second attempt, exit status 0, stop and
snapshot polls succeed on their second fetches) produces exactly the
claimed call sequence and ends successfully. -/
theorem C1_happy_path_witness :
    mainRun
      { organization_ids := ["org1"],
        catalog :=
          [{ name := "Ubuntu New", categories := ["distribution"], creation_date := 2,
             current_public_version := "V2",
             versions := [{ id := "V2", local_images :=
               [{ id := "L2", zone := "fr-par-1",
                  compatible_commercial_types := ["DEV1-M"] }] }] }],
        key_public := "PUB", key_private := "PRIV",
        created :=
          { id := "srv", state := MachineState.pending, public_ip := "1.2.3.4",
            volume1_id := "volX", arch := "x86_64" },
        bootResponses := fun i =>
          { id := "srv",
            state := if i < 2 then MachineState.starting else MachineState.running,
            public_ip := "1.2.3.4", volume1_id := "volX", arch := "x86_64" },
        sshFails := fun i => decide (i < 1),
        files := ["nix-bootstrap.sh"],
        exit_status := 0,
        stopResponses := fun i =>
          { id := "srv",
            state := if i < 1 then MachineState.running else MachineState.stoppedInPlace,
            public_ip := "1.2.3.4", volume1_id := "volX", arch := "x86_64" },
        snapResponses := fun i =>
          { id := "snap1",
            state := if i < 1 then SnapState.pending else SnapState.available },
        timestamp := "2020-01-01T00:00:00" }
      { region := "fr-par-1", instance_type := "DEV1-M", bootstrap_disk_size := PyVal.int 20 } 10
      = some (
      [Event.getOrganizations, Event.listImages,
       Event.createServer "L2" (PyVal.int 20000000000) 20000000000 "AUTHORIZED_KEY=PUB",
       Event.serverAction "srv" "poweron",
       Event.getServer, Event.getServer, Event.getServer,
       Event.sshConnect "1.2.3.4", Event.sshConnect "1.2.3.4",
       Event.openSftp, Event.sftpPut "nix-bootstrap.sh" "/tmp/nix-bootstrap.sh",
       Event.execCommand "bash /tmp/nix-bootstrap.sh", Event.recvExitStatus,
       Event.getServer, Event.getServer,
       Event.createSnapshot "volX" "nixos-2020-01-01T00:00:00",
       Event.getSnapshot, Event.getSnapshot,
       Event.createImage "nixos-2020-01-01T00:00:00" "snap1" "x86_64",
       Event.serverAction "srv" "terminate"],
      Except.ok ()) :=
  C1_happy_path
    { organization_ids := ["org1"],
      catalog :=
        [{ name := "Ubuntu New", categories := ["distribution"], creation_date := 2,
           current_public_version := "V2",
           versions := [{ id := "V2", local_images :=
             [{ id := "L2", zone := "fr-par-1",
                compatible_commercial_types := ["DEV1-M"] }] }] }],
      key_public := "PUB", key_private := "PRIV",
      created :=
        { id := "srv", state := MachineState.pending, public_ip := "1.2.3.4",
          volume1_id := "volX", arch := "x86_64" },
      bootResponses := fun i =>
        { id := "srv",
          state := if i < 2 then MachineState.starting else MachineState.running,
          public_ip := "1.2.3.4", volume1_id := "volX", arch := "x86_64" },
      sshFails := fun i => decide (i < 1),
      files := ["nix-bootstrap.sh"],
      exit_status := 0,
      stopResponses := fun i =>
        { id := "srv",
          state := if i < 1 then MachineState.running else MachineState.stoppedInPlace,
          public_ip := "1.2.3.4", volume1_id := "volX", arch := "x86_64" },
      snapResponses := fun i =>
        { id := "snap1",
          state := if i < 1 then SnapState.pending else SnapState.available },
      timestamp := "2020-01-01T00:00:00" }
    { region := "fr-par-1", instance_type := "DEV1-M", bootstrap_disk_size := PyVal.int 20 } 10 "org1" [] rfl "L2" rfl
    2 (by decide) (by decide) rfl
    1 (by decide) (by decide) rfl
    rfl
    1 (by decide) (by decide) rfl
    1 (by decide) (by decide) rfl

/-- Witness for C2: the same mocked run with bootstrap exit status 1 stops
at the status read with `BootstrapFailed`; its trace contains no snapshot
creation and no terminate action. -/
theorem C2_bootstrap_failure_witness :
    (mainRun
      { organization_ids := ["org1"],
        catalog :=
          [{ name := "Ubuntu New", categories := ["distribution"], creation_date := 2,
             current_public_version := "V2",
             versions := [{ id := "V2", local_images :=
               [{ id := "L2", zone := "fr-par-1",
                  compatible_commercial_types := ["DEV1-M"] }] }] }],
        key_public := "PUB", key_private := "PRIV",
        created :=
          { id := "srv", state := MachineState.pending, public_ip := "1.2.3.4",
            volume1_id := "volX", arch := "x86_64" },
        bootResponses := fun i =>
          { id := "srv",
            state := if i < 2 then MachineState.starting else MachineState.running,
            public_ip := "1.2.3.4", volume1_id := "volX", arch := "x86_64" },
        sshFails := fun i => decide (i < 1),
        files := ["nix-bootstrap.sh"],
        exit_status := 1,
        stopResponses := fun i =>
          { id := "srv",
            state := if i < 1 then MachineState.running else MachineState.stoppedInPlace,
            public_ip := "1.2.3.4", volume1_id := "volX", arch := "x86_64" },
        snapResponses := fun i =>
          { id := "snap1",
            state := if i < 1 then SnapState.pending else SnapState.available },
        timestamp := "2020-01-01T00:00:00" }
      { region := "fr-par-1", instance_type := "DEV1-M", bootstrap_disk_size := PyVal.int 20 } 10
      = some (
      [Event.getOrganizations, Event.listImages,
       Event.createServer "L2" (PyVal.int 20000000000) 20000000000 "AUTHORIZED_KEY=PUB",
       Event.serverAction "srv" "poweron",
       Event.getServer, Event.getServer, Event.getServer,
       Event.sshConnect "1.2.3.4", Event.sshConnect "1.2.3.4",
       Event.openSftp, Event.sftpPut "nix-bootstrap.sh" "/tmp/nix-bootstrap.sh",
       Event.execCommand "bash /tmp/nix-bootstrap.sh", Event.recvExitStatus],
      Except.error RunErr.bootstrapFailed)) ∧
    Event.createSnapshot "volX" "nixos-2020-01-01T00:00:00" ∉
      ([Event.getOrganizations, Event.listImages,
       Event.createServer "L2" (PyVal.int 20000000000) 20000000000 "AUTHORIZED_KEY=PUB",
       Event.serverAction "srv" "poweron",
       Event.getServer, Event.getServer, Event.getServer,
       Event.sshConnect "1.2.3.4", Event.sshConnect "1.2.3.4",
       Event.openSftp, Event.sftpPut "nix-bootstrap.sh" "/tmp/nix-bootstrap.sh",
       Event.execCommand "bash /tmp/nix-bootstrap.sh", Event.recvExitStatus]) ∧
    Event.serverAction "srv" "terminate" ∉
      ([Event.getOrganizations, Event.listImages,
       Event.createServer "L2" (PyVal.int 20000000000) 20000000000 "AUTHORIZED_KEY=PUB",
       Event.serverAction "srv" "poweron",
       Event.getServer, Event.getServer, Event.getServer,
       Event.sshConnect "1.2.3.4", Event.sshConnect "1.2.3.4",
       Event.openSftp, Event.sftpPut "nix-bootstrap.sh" "/tmp/nix-bootstrap.sh",
       Event.execCommand "bash /tmp/nix-bootstrap.sh", Event.recvExitStatus]) := by
  have h := (C2_bootstrap_failure
    { organization_ids := ["org1"],
      catalog :=
        [{ name := "Ubuntu New", categories := ["distribution"], creation_date := 2,
           current_public_version := "V2",
           versions := [{ id := "V2", local_images :=
             [{ id := "L2", zone := "fr-par-1",
                compatible_commercial_types := ["DEV1-M"] }] }] }],
      key_public := "PUB", key_private := "PRIV",
      created :=
        { id := "srv", state := MachineState.pending, public_ip := "1.2.3.4",
          volume1_id := "volX", arch := "x86_64" },
      bootResponses := fun i =>
        { id := "srv",
          state := if i < 2 then MachineState.starting else MachineState.running,
          public_ip := "1.2.3.4", volume1_id := "volX", arch := "x86_64" },
      sshFails := fun i => decide (i < 1),
      files := ["nix-bootstrap.sh"],
      exit_status := 1,
      stopResponses := fun i =>
        { id := "srv",
          state := if i < 1 then MachineState.running else MachineState.stoppedInPlace,
          public_ip := "1.2.3.4", volume1_id := "volX", arch := "x86_64" },
      snapResponses := fun i =>
        { id := "snap1",
          state := if i < 1 then SnapState.pending else SnapState.available },
      timestamp := "2020-01-01T00:00:00" }
    { region := "fr-par-1", instance_type := "DEV1-M", bootstrap_disk_size := PyVal.int 20 } 10 "org1" [] rfl "L2" rfl
    2 (by decide) (by decide) rfl
    1 (by decide) (by decide) rfl
    1 (by decide) (by decide) rfl
    1 (by decide) (by decide) rfl).1 (by refine ⟨?_, ?_⟩ <;> decide)
  exact ⟨h.1, h.2.2.1 "volX" "nixos-2020-01-01T00:00:00",
    h.2.2.2.2 "srv"⟩

/-- Witness for C5: at the concrete region of the claim, a local image in
zone `"par1"` compatible with `"DEV1-M"` is kept, and the legacy short form
of `"fr-par-1"` is `"par1"`. -/
theorem C5_local_image_filter_witness :
    localImageKept "fr-par-1" "DEV1-M"
      { id := "L1", zone := "par1", compatible_commercial_types := ["DEV1-M"] } = true ∧
    legacyZone "fr-par-1" = "par1" := by
  have h := C5_local_image_filter "fr-par-1" "DEV1-M"
    { id := "L1", zone := "par1", compatible_commercial_types := ["DEV1-M"] }
  refine ⟨h.1.mpr ⟨by decide, Or.inr ?_⟩, h.2⟩
  rw [h.2]

/-- Witness for C10: on the line `" a   b "` the normalizer emits `"a b"`,
a fixed point of the normalizer that is non-empty, has no whitespace run
and no edge whitespace. -/
theorem C10_flatten_whitespace_idempotent_witness :
    flatten_whitespace (flatten_whitespace [" a   b ".toList]) =
      flatten_whitespace [" a   b ".toList] ∧
    ("a b".toList ≠ [] ∧ noWSRun "a b".toList = true ∧
      headNotWS "a b".toList = true ∧ headNotWS "a b".toList.reverse = true) := by
  have h := C10_flatten_whitespace_idempotent [" a   b ".toList]
  have hm : flatten_whitespace [" a   b ".toList] = ["a b".toList] := by
    have h1 : isWS ' ' = true := rfl
    have h2 : isWS 'a' = false := rfl
    have h3 : isWS 'b' = false := rfl
    simp only [flatten_whitespace, normalizeLine, stripWS, List.map_cons, List.map_nil]
    simp [collapseWS_cons, collapseWS_nil, List.dropWhile, h1, h2, h3]
  exact ⟨h.1, h.2 "a b".toList (by rw [hm]; exact List.mem_cons_self _ _)⟩

end MkImage
